import Mathlib

/-!
Verification of the xtream2m3u playlist service against its specification.

The definitions below are a shallow embedding of the Python source:
  * `app/utils/helpers.py`   — `group_matches` (pattern matcher) and `encode_url`
  * `app/services/m3u_generator.py` — `generate_m3u_playlist` (per-stream records)
  * `app/services/xtream_api.py`    — `fetch_categories_and_channels`,
    the episode-extraction step of `fetch_series_episodes`
  * `app/utils/streaming.py` / `app/routes/proxy.py` — streaming proxy

Python strings are modelled as `String`/`List Char`, dictionaries read with
`.get` as `Option`-valued fields, exceptions as `Except`/explicit outcome
data, and the stable `sorted(...)` builtin as a stable insertion sort.
-/

namespace Xtream

/-! ### Pattern matcher: embedding of `group_matches` (app/utils/helpers.py, lines 60-93)

`fnmatch.fnmatch` is embedded by first compiling the pattern into tokens
(mirroring `fnmatch.translate`): `*`, `?`, bracket classes `[seq]` /
`[!seq]` with ranges, everything else a literal.  An unterminated `[` is a
literal `[`. -/

/-- Scan for the closing `]` of a bracket class; returns (content, rest). -/
def scanClose : List Char → Option (List Char × List Char)
  | [] => none
  | ']' :: t => some ([], t)
  | c :: t =>
    match scanClose t with
    | some (co, re) => some (c :: co, re)
    | none => none

/-- Body of the bracket-class parser, after the optional `!` has been taken
off: a `]` directly at the start is literal content; remaining content runs
up to the next `]`; no closing `]` means failure (literal `[`). -/
def splitBracketCore (neg : Bool) (cs1 : List Char) :
    Option (Bool × List Char × List Char) :=
  if cs1.head? = some ']' then
    match scanClose cs1.tail with
    | some (co, re) => some (neg, ']' :: co, re)
    | none => none
  else
    match scanClose cs1 with
    | some (co, re) => some (neg, co, re)
    | none => none

/-- Parse a bracket class (chars after `[`): optional leading `!` negates.
Mirrors the `[` case of `fnmatch.translate`. -/
def splitBracket (cs : List Char) : Option (Bool × List Char × List Char) :=
  if cs.head? = some '!' then splitBracketCore true cs.tail
  else splitBracketCore false cs

/-- Items of a bracket class: `(lo, hi)` ranges (a single char is `(c, c)`).
`a-b` is a range; a stray `-` at either end is a literal character. -/
def classItems : List Char → List (Char × Char)
  | [] => []
  | a :: '-' :: b :: rest => (a, b) :: classItems rest
  | a :: rest => (a, a) :: classItems rest

/-- Does char `c` fall inside one of the class items (code-point ranges,
empty ranges match nothing, as in `fnmatch`)? -/
def inClassItems (items : List (Char × Char)) (c : Char) : Bool :=
  items.any (fun lh => lh.1.toNat ≤ c.toNat && c.toNat ≤ lh.2.toNat)

/-- Glob-pattern tokens, the compiled form of an `fnmatch` pattern. -/
inductive GlobTok where
  | star : GlobTok
  | anyc : GlobTok
  | lit : Char → GlobTok
  | cls : Bool → List (Char × Char) → GlobTok
deriving DecidableEq

/-- Compile an `fnmatch` pattern into tokens (embedding of
`fnmatch.translate`'s scanning loop).  The scan consumes at least one char
per step, so fuel `cs.length` makes the recursion total. -/
def lexGlobF : Nat → List Char → List GlobTok
  | 0, _ => []
  | _, [] => []
  | fuel + 1, c :: ps =>
    if c = '*' then GlobTok.star :: lexGlobF fuel ps
    else if c = '?' then GlobTok.anyc :: lexGlobF fuel ps
    else if c = '[' then
      match splitBracket ps with
      | some (neg, co, re) => GlobTok.cls neg (classItems co) :: lexGlobF fuel re
      | none => GlobTok.lit '[' :: lexGlobF fuel ps
    else GlobTok.lit c :: lexGlobF fuel ps

def lexGlob (cs : List Char) : List GlobTok := lexGlobF cs.length cs

/-- Match a token list against a string: the semantics of the regex
produced by `fnmatch.translate`, with `*` matching any suffix split. -/
def tokMatch : List GlobTok → List Char → Bool
  | [], s => s.isEmpty
  | GlobTok.star :: ts, s => s.tails.any (fun suf => tokMatch ts suf)
  | GlobTok.anyc :: ts, s =>
    match s with
    | [] => false
    | _ :: s' => tokMatch ts s'
  | GlobTok.lit c :: ts, s =>
    match s with
    | [] => false
    | d :: s' => (c == d) && tokMatch ts s'
  | GlobTok.cls neg items :: ts, s =>
    match s with
    | [] => false
    | d :: s' => (inClassItems items d != neg) && tokMatch ts s'

/-- Embedding of `fnmatch.fnmatch(name, pat)` (POSIX `normcase` is the
identity). -/
def fnmatchB (nameChars patChars : List Char) : Bool :=
  tokMatch (lexGlob patChars) nameChars

/-- Python `str.lower()` (ASCII range). -/
def lowerChars (s : List Char) : List Char := s.map Char.toLower

/-- Python `str.split()`: split on whitespace runs, no empty tokens. -/
def splitWsAux : List Char → List Char → List (List Char)
  | [], acc => if acc.isEmpty then [] else [acc.reverse]
  | c :: t, acc =>
    if c.isWhitespace then
      if acc.isEmpty then splitWsAux t [] else acc.reverse :: splitWsAux t []
    else splitWsAux t (c :: acc)

def splitWs (s : List Char) : List (List Char) := splitWsAux s []

/-- Python `needle in hay` prefix worker: does `hay` start with `needle`? -/
def leadMatch : List Char → List Char → Bool
  | [], _ => true
  | _ :: _, [] => false
  | a :: as, b :: bs => (a == b) && leadMatch as bs

/-- Python substring containment `needle in hay`. -/
def containsSub (needle : List Char) : List Char → Bool
  | [] => needle.isEmpty
  | c :: t => leadMatch needle (c :: t) || containsSub needle t

/-- Does the token contain a wildcard character (`*` or `?`)? -/
def tokenHasWild (t : List Char) : Bool := t.contains '*' || t.contains '?'

/-- Per-position token check inside the space branch of `group_matches`
(helpers.py lines 77-85): glob when the pattern token has a wildcard, else
substring containment in the label token. -/
def partsMatch : List (List Char) → List (List Char) → Bool
  | [], _ => true
  | _ :: _, [] => false
  | p :: ps, g :: gs =>
    (if tokenHasWild p then fnmatchB g p else containsSub p g) && partsMatch ps gs

/-- Embedding of `group_matches(group_title, pattern)`
(app/utils/helpers.py, lines 60-93). -/
def group_matches (group_title pattern : String) : Bool :=
  let group_lower := lowerChars group_title.toList
  let pattern_lower := lowerChars pattern.toList
  if pattern_lower.contains ' ' then
    let pattern_parts := splitWs pattern_lower
    let group_parts := splitWs group_lower
    if pattern_parts.length > group_parts.length then false
    else partsMatch pattern_parts group_parts
  else if tokenHasWild pattern_lower then fnmatchB group_lower pattern_lower
  else containsSub pattern_lower group_lower

/-! ### URL encoding: embedding of `encode_url` (app/utils/helpers.py, lines 50-52)

`urllib.parse.quote(url, safe="")`: percent-encode every UTF-8 byte except
the unreserved characters (letters, digits, `_ . - ~`), uppercase hex. -/

/-- UTF-8 bytes of a character. -/
def utf8Bytes (c : Char) : List Nat :=
  let n := c.toNat
  if n < 0x80 then [n]
  else if n < 0x800 then
    [0xC0 + n / 0x40, 0x80 + n % 0x40]
  else if n < 0x10000 then
    [0xE0 + n / 0x1000, 0x80 + (n / 0x40) % 0x40, 0x80 + n % 0x40]
  else
    [0xF0 + n / 0x40000, 0x80 + (n / 0x1000) % 0x40, 0x80 + (n / 0x40) % 0x40,
     0x80 + n % 0x40]

def hexDigitU (n : Nat) : Char :=
  if n < 10 then Char.ofNat (48 + n) else Char.ofNat (55 + n)

/-- Is this byte an unreserved character of `urllib.parse.quote`? -/
def isUnreservedByte (b : Nat) : Bool :=
  (65 ≤ b && b ≤ 90) || (97 ≤ b && b ≤ 122) || (48 ≤ b && b ≤ 57) ||
    b = 95 || b = 46 || b = 45 || b = 126

def quoteByte (b : Nat) : List Char :=
  if isUnreservedByte b then [Char.ofNat b]
  else ['%', hexDigitU (b / 16), hexDigitU (b % 16)]

/-- Embedding of `encode_url(url)`: `quote(url, safe="")` for non-empty
input, `""` otherwise. -/
def encode_url (url : String) : String :=
  if url = "" then ""
  else String.mk ((url.toList.flatMap utf8Bytes).flatMap quoteByte)

/-! ### Stable sort: embedding of Python's `sorted(items, key=...)`

Python's `sorted` is the stable ascending sort by key; a stable insertion
sort has exactly that behavior. -/

/-- Insert `x` before the first element whose key is not smaller, keeping
elements with equal keys in their existing order (stability). -/
def insertByKey (key : α → Nat) (x : α) : List α → List α
  | [] => [x]
  | y :: ys => if key y < key x then y :: insertByKey key x ys else x :: y :: ys

/-- Stable ascending sort by `key` — the behavior of Python `sorted`. -/
def sortByKey (key : α → Nat) : List α → List α
  | [] => []
  | x :: xs => insertByKey key x (sortByKey key xs)

/-! ### Data model of the playlist generator (app/services/m3u_generator.py) -/

/-- One upstream episode object, as read by the generator: `id`,
`episode_num`, `title`, and optional `container_extension`
(default `"mp4"`). -/
structure Episode where
  id : String
  episode_num : Nat
  title : String
  container_extension : Option String
deriving DecidableEq

/-- The upstream `episodes` payload: either a mapping keyed by season
number (modelled as an association list in dict iteration order) or a flat
list of episodes. -/
inductive EpisodesPayload where
  | dict : List (String × List Episode) → EpisodesPayload
  | flat : List Episode → EpisodesPayload
deriving DecidableEq

/-- Python truthiness of the payload (`if episodes_data:` / `data["episodes"]`). -/
def payloadTruthy : EpisodesPayload → Bool
  | EpisodesPayload.dict d => !d.isEmpty
  | EpisodesPayload.flat l => !l.isEmpty

/-- A stream entry of the aggregated catalog, fields as read via `.get`
(`none` = key absent). -/
structure MediaStream where
  stream_id : Option String
  series_id : Option String
  name : Option String
  category_id : Option String
  content_type : Option String
  stream_icon : Option String
  container_extension : Option String
  epg_channel_id : Option String
deriving DecidableEq

/-- The request-scoped options of `generate_m3u_playlist`. -/
structure GenConfig where
  username : String
  password : String
  server_url : String
  wanted_groups : List String
  unwanted_groups : List String
  no_stream_proxy : Bool
  include_channel_id : Bool
  channel_id_tag : String
  proxy_url : String
deriving DecidableEq

/-- Python dict lookup on an association list built by insertion: the last
binding of a key wins. -/
def dictGet (l : List (String × String)) (k : String) : Option String :=
  match l.reverse.find? (fun kv => kv.1 == k) with
  | some kv => some kv.2
  | none => none

/-- Embedding of `stream.get("content_type", "live")`. -/
def content_type_of (s : MediaStream) : String := s.content_type.getD "live"

/-- Embedding of `category_names.get(stream.get("category_id"))` — `None` when the
category id is absent or unknown. -/
def category_lookup (cats : List (String × String)) (s : MediaStream) :
    Option String :=
  match s.category_id with
  | some cid => dictGet cats cid
  | none => none

/-- Embedding of `category_names.get(stream.get("category_id"), "Uncategorized")`
(m3u_generator.py line 126). -/
def category_name_of (cats : List (String × String)) (s : MediaStream) : String :=
  (category_lookup cats s).getD "Uncategorized"

/-- Group title per content type (m3u_generator.py lines 129-140). -/
def group_title_of (cats : List (String × String)) (s : MediaStream) : String :=
  let category_name := category_name_of cats s
  if content_type_of s == "series" then "Series - " ++ category_name
  else if content_type_of s == "vod" then "VOD - " ++ category_name
  else category_name

/-- Stream display name (m3u_generator.py lines 132, 136). -/
def stream_name_of (s : MediaStream) : String :=
  if content_type_of s == "series" then s.name.getD "Unknown Series"
  else s.name.getD "Unknown"

/-- The lower-cased pre-compiled pattern list (m3u_generator.py lines 63-64):
empty when the group list is falsy. -/
def wanted_patterns (groups : List String) : List String :=
  if groups.isEmpty then [] else groups.map (fun p => String.mk (lowerChars p.toList))

/-- The per-stream inclusion decision (m3u_generator.py lines 142-157). -/
def include_stream (wanted unwanted : List String)
    (category_name group_title : String) : Bool :=
  if !(wanted_patterns wanted).isEmpty then
    wanted.any (fun w => group_matches category_name w || group_matches group_title w)
  else if !(wanted_patterns unwanted).isEmpty then
    !(unwanted.any (fun u => group_matches category_name u || group_matches group_title u))
  else true

/-- Python `" ".join(tags)`. -/
def joinSpace : List String → String
  | [] => ""
  | [t] => t
  | t :: ts => t ++ " " ++ joinSpace ts

/-- Logo URL (m3u_generator.py lines 174-178): proxied only when a logo
exists and stream proxying is enabled. -/
def logo_url_of (cfg : GenConfig) (s : MediaStream) : String :=
  let original_logo := s.stream_icon.getD ""
  if original_logo != "" && !cfg.no_stream_proxy then
    cfg.proxy_url ++ "/image-proxy/" ++ encode_url original_logo
  else original_logo

/-- The `#EXTINF` tag list (m3u_generator.py lines 168-185): `tvg-name`,
`group-title`, `tvg-logo` (always appended, value possibly empty), then the
channel-id tag when enabled and the stream has a truthy `epg_channel_id`. -/
def mkTags (cfg : GenConfig) (s : MediaStream)
    (stream_name group_title : String) : List String :=
  let tags := ["tvg-name=\"" ++ stream_name ++ "\"",
               "group-title=\"" ++ group_title ++ "\"",
               "tvg-logo=\"" ++ logo_url_of cfg s ++ "\""]
  if cfg.include_channel_id then
    match s.epg_channel_id with
    | some cid =>
      if cid != "" then tags ++ [cfg.channel_id_tag ++ "=\"" ++ cid ++ "\""]
      else tags
    | none => tags
  else tags

/-- Stream-proxy rewriting (m3u_generator.py lines 219-220, 236-237). -/
def proxyWrap (cfg : GenConfig) (u : String) : String :=
  if !cfg.no_stream_proxy then cfg.proxy_url ++ "/stream-proxy/" ++ encode_url u
  else u

/-- Embedding of `int(x[0]) if str(x[0]).isdigit() else 999` — the season sort key
(m3u_generator.py line 201). -/
def seasonSortKey (k : String) : Nat :=
  if !k.isEmpty && k.toList.all Char.isDigit then
    k.toList.foldl (fun a c => a * 10 + (c.toNat - 48)) 0
  else 999

/-- Python `str.zfill(2)`: pad on the left with zeros to length 2, keeping a
leading sign in front. -/
def zfill2 (s : String) : String :=
  if s.length ≥ 2 then s
  else
    match s.toList with
    | [] => "00"
    | [c] => if c = '+' || c = '-' then String.mk [c, '0'] else String.mk ['0', c]
    | _ => s

/-- Embedding of `sorted(episodes_data.items(), key=...)` (m3u_generator.py line 201). -/
def sortSeasons (d : List (String × List Episode)) : List (String × List Episode) :=
  sortByKey (fun kv => seasonSortKey kv.1) d

/-- The (season, episode) pairs in emission order: seasons as sorted,
episodes in the order returned (the nested loops of lines 205-206). -/
def seriesPairs (d : List (String × List Episode)) : List (String × Episode) :=
  (sortSeasons d).flatMap (fun kv => kv.2.map (fun e => (kv.1, e)))

/-- One emitted playlist record: (`#EXTINF` metadata line, URL line). -/
abbrev PlaylistRecord := String × String

/-- One per-episode record (m3u_generator.py lines 207-226). -/
def episodeRecord (cfg : GenConfig) (tags : List String)
    (stream_name season_key : String) (e : Episode) : PlaylistRecord :=
  let full_title := stream_name ++ " - S" ++ zfill2 season_key ++ "E" ++
    zfill2 (Nat.repr e.episode_num) ++ " - " ++ e.title
  let ep_url := cfg.server_url ++ "/series/" ++ cfg.username ++ "/" ++
    cfg.password ++ "/" ++ e.id ++ "." ++ e.container_extension.getD "mp4"
  ("#EXTINF:0 " ++ joinSpace tags ++ "," ++ full_title, proxyWrap cfg ep_url)

/-- All records of a series with a season-keyed episode mapping. -/
def seriesRecords (cfg : GenConfig) (tags : List String) (stream_name : String)
    (d : List (String × List Episode)) : List PlaylistRecord :=
  (seriesPairs d).map (fun ke => episodeRecord cfg tags stream_name ke.1 ke.2)

/-- Embedding of `series_episodes_map.get(stream.get("series_id"))`. -/
def lookupEpisodes (m : List (String × EpisodesPayload)) (sid : Option String) :
    Option EpisodesPayload :=
  match sid with
  | none => none
  | some k =>
    match m.reverse.find? (fun kv => kv.1 == k) with
    | some kv => some kv.2
    | none => none

/-- The per-stream body of the emission loop (m3u_generator.py lines
122-243).  `Except.error ()` models an uncaught Python exception: a
`KeyError` on a missing `stream_id`, an `AttributeError` when `.items()` is
called on a flat episode list (line 201/203), or the unbound `stream_url`
of an unknown content type. -/
def processStream (cfg : GenConfig) (cats : List (String × String))
    (epMap : List (String × EpisodesPayload)) (s : MediaStream) :
    Except Unit (List PlaylistRecord) :=
  let content_type := content_type_of s
  let category_name := category_name_of cats s
  let group_title := group_title_of cats s
  let stream_name := stream_name_of s
  if include_stream cfg.wanted_groups cfg.unwanted_groups category_name group_title then
    let tags := mkTags cfg s stream_name group_title
    let meta := "#EXTINF:0 " ++ joinSpace tags ++ "," ++ stream_name
    if content_type == "live" then
      match s.stream_id with
      | none => Except.error ()
      | some sid =>
        Except.ok [(meta, proxyWrap cfg (cfg.server_url ++ "/live/" ++
          cfg.username ++ "/" ++ cfg.password ++ "/" ++ sid ++ ".ts"))]
    else if content_type == "vod" then
      match s.stream_id with
      | none => Except.error ()
      | some sid =>
        Except.ok [(meta, proxyWrap cfg (cfg.server_url ++ "/movie/" ++
          cfg.username ++ "/" ++ cfg.password ++ "/" ++ sid ++ "." ++
          s.container_extension.getD "mp4"))]
    else if content_type == "series" then
      match lookupEpisodes epMap s.series_id with
      | some p =>
        if payloadTruthy p then
          match p with
          | EpisodesPayload.dict d =>
            Except.ok (seriesRecords cfg tags stream_name d)
          | EpisodesPayload.flat _ => Except.error ()
        else
          let fallback_id := match s.series_id with
            | some v => v
            | none => s.stream_id.getD ""
          Except.ok [(meta, proxyWrap cfg (cfg.server_url ++ "/series/" ++
            cfg.username ++ "/" ++ cfg.password ++ "/" ++ fallback_id ++ ".mp4"))]
      | none =>
        let fallback_id := match s.series_id with
          | some v => v
          | none => s.stream_id.getD ""
        Except.ok [(meta, proxyWrap cfg (cfg.server_url ++ "/series/" ++
          cfg.username ++ "/" ++ cfg.password ++ "/" ++ fallback_id ++ ".mp4"))]
    else Except.error ()
  else Except.ok []

/-- Render records as the two-line pairs appended to the playlist text. -/
def renderRecords (rs : List PlaylistRecord) : String :=
  rs.foldl (fun acc r => acc ++ r.1 ++ "\n" ++ r.2 ++ "\n") ""

/-- The playlist document: header line, then every included stream's
records in stream order (m3u_generator.py `generate_m3u_playlist`). -/
def generate_m3u_playlist (cfg : GenConfig) (cats : List (String × String))
    (epMap : List (String × EpisodesPayload)) (streams : List MediaStream) :
    Except Unit String :=
  streams.foldl
    (fun acc s =>
      match acc with
      | Except.error e => Except.error e
      | Except.ok text =>
        match processStream cfg cats epMap s with
        | Except.error e => Except.error e
        | Except.ok rs => Except.ok (text ++ renderRecords rs))
    (Except.ok "#EXTM3U\n")

/-- The episode-extraction step of `fetch_series_episodes`
(app/services/xtream_api.py lines 105-112): the raw `episodes` value is
returned unchanged when it is present and truthy, else no entry is made. -/
def extract_series_episodes (data : Option EpisodesPayload) :
    Option EpisodesPayload :=
  match data with
  | some p => if payloadTruthy p then some p else none
  | none => none

/-! ### Catalog fetcher: embedding of `fetch_categories_and_channels`
(app/services/xtream_api.py, lines 118-281)

Per-endpoint HTTP results are joined into one result set before processing;
join order does not matter.  A value is a JSON list, the `(error_json,
status)` tuple produced by `fetch_api_data` on a transport failure, or
anything else (absent endpoint, `None` from a raised exception, a dict or
a string body). -/

/-- One category or stream object of an endpoint list; `content_type` is
the tag added before merging. -/
structure CatalogItem where
  payload : String
  content_type : Option String
deriving DecidableEq

/-- The joined value of one endpoint. -/
inductive ApiValue where
  | vlist : List CatalogItem → ApiValue
  | verr : String → Nat → ApiValue
  | vother : ApiValue
deriving DecidableEq

/-- The joined per-endpoint results of the concurrent fetch. -/
structure EndpointResults where
  live_categories : ApiValue
  live_streams : ApiValue
  vod_categories : ApiValue
  series_categories : ApiValue
  vod_streams : ApiValue
  series : ApiValue
deriving DecidableEq

/-- Embedding of `for x in l: x["content_type"] = kind` before `extend`. -/
def tagItems (kind : String) (l : List CatalogItem) : List CatalogItem :=
  l.map (fun it => { it with content_type := some kind })

/-- Contribution of one best-effort endpoint
(`if isinstance(v, list) and v: tag; extend`): non-lists contribute
nothing. -/
def optionalContribution (kind : String) (v : ApiValue) : List CatalogItem :=
  match v with
  | ApiValue.vlist l => tagItems kind l
  | _ => []

def invalid_format_error : String := "Invalid Data Format"

/-- Embedding of the aggregation and validation part of
`fetch_categories_and_channels` (xtream_api.py lines 174-281): the live
endpoints are mandatory, everything else best-effort. -/
def fetch_categories_and_channels (r : EndpointResults) (include_vod : Bool) :
    Except (String × Nat) (List CatalogItem × List CatalogItem) :=
  match r.live_categories with
  | ApiValue.verr e c => Except.error (e, c)
  | lc =>
    match r.live_streams with
    | ApiValue.verr e c => Except.error (e, c)
    | ls =>
      match lc, ls with
      | ApiValue.vlist lcl, ApiValue.vlist lsl =>
        let all_categories := tagItems "live" lcl
        let all_streams := tagItems "live" lsl
        if include_vod then
          Except.ok
            (all_categories ++ optionalContribution "vod" r.vod_categories ++
               optionalContribution "series" r.series_categories,
             all_streams ++ optionalContribution "vod" r.vod_streams ++
               optionalContribution "series" r.series)
        else Except.ok (all_categories, all_streams)
      | _, _ => Except.error (invalid_format_error, 500)

/-! ### Streaming proxy: embedding of `generate_streaming_response`
(app/utils/streaming.py, lines 22-65) and the proxy routes
(app/routes/proxy.py)

The upstream body is a list of chunks followed by a termination event; the
generator's behavior is summarized as the bytes it yields, whether it
raises to the caller, and whether the upstream handle is closed. -/

/-- How the upstream body iteration ends. -/
inductive StreamTermination where
  | completed : StreamTermination
  | chunkedEncodingError : StreamTermination
  | connectionError : StreamTermination
  | otherException : StreamTermination
deriving DecidableEq

/-- Outcome of running the `generate()` generator to exhaustion. -/
structure GenStreamResult where
  sent : List (List Nat)
  raised : Bool
  upstreamClosed : Bool
deriving DecidableEq

/-- Embedding of `for chunk in response.iter_content(...): if chunk: yield chunk` —
falsy (empty) chunks are skipped. -/
def yieldedChunks (chunks : List (List Nat)) : List (List Nat) :=
  chunks.filter (fun c => !c.isEmpty)

/-- The generator of `generate_streaming_response` (streaming.py lines
27-52): yields the chunks produced before the termination event; every
`except` branch swallows the exception (no raise after headers), and the
`finally` block closes the upstream response. -/
def generate_streaming_body (chunks : List (List Nat))
    (term : StreamTermination) : GenStreamResult :=
  let sent := yieldedChunks chunks
  match term with
  | StreamTermination.completed =>
    { sent := sent, raised := false, upstreamClosed := true }
  | StreamTermination.chunkedEncodingError =>
    { sent := sent, raised := false, upstreamClosed := true }
  | StreamTermination.connectionError =>
    { sent := sent, raised := false, upstreamClosed := true }
  | StreamTermination.otherException =>
    { sent := sent, raised := false, upstreamClosed := true }

/-- How the upstream fetch of a proxy route turns out.  `ok` means
`requests.get` returned a 2xx response (carrying its `Content-Type` header,
body chunks and body termination); the other cases are raised before
streaming starts.  For `timeout` and `otherFailure` the exception is raised
inside `requests.get`, so no response handle exists; for `httpError` the
handle exists and `raise_for_status` raised. -/
inductive UpstreamFetch where
  | timeout : UpstreamFetch
  | httpError : Nat → UpstreamFetch
  | otherFailure : UpstreamFetch
  | ok : Option String → List (List Nat) → StreamTermination → UpstreamFetch
deriving DecidableEq

/-- Outcome of one proxy route invocation.  `upstreamClosed` means no
unreleased upstream response handle remains on this exit path. -/
structure ProxyOutcome where
  status : Nat
  body : List (List Nat)
  upstreamClosed : Bool
deriving DecidableEq

/-- Embedding of the `proxy_image` route (app/routes/proxy.py lines 15-38):
the error branches return distinct statuses; a non-`image/*` content type is
rejected with 415.  Neither the `HTTPError` branch nor the 415 branch closes
the response handle. -/
def proxy_image (u : UpstreamFetch) : ProxyOutcome :=
  match u with
  | UpstreamFetch.timeout => { status := 504, body := [], upstreamClosed := true }
  | UpstreamFetch.httpError s => { status := s, body := [], upstreamClosed := false }
  | UpstreamFetch.otherFailure => { status := 500, body := [], upstreamClosed := true }
  | UpstreamFetch.ok ct chunks term =>
    let content_type := ct.getD ""
    if leadMatch "image/".toList content_type.toList then
      let g := generate_streaming_body chunks term
      { status := 200, body := g.sent, upstreamClosed := g.upstreamClosed }
    else { status := 415, body := [], upstreamClosed := false }

/-- Embedding of the `proxy_stream` route (app/routes/proxy.py lines
41-71): like `proxy_image` but without the content-type restriction. -/
def proxy_stream (u : UpstreamFetch) : ProxyOutcome :=
  match u with
  | UpstreamFetch.timeout => { status := 504, body := [], upstreamClosed := true }
  | UpstreamFetch.httpError s => { status := s, body := [], upstreamClosed := false }
  | UpstreamFetch.otherFailure => { status := 500, body := [], upstreamClosed := true }
  | UpstreamFetch.ok _ chunks term =>
    let g := generate_streaming_body chunks term
    { status := 200, body := g.sent, upstreamClosed := g.upstreamClosed }

/-! ### Spec-side matcher description (for claim C2) -/

/-- The claim's per-token rule: glob when the token carries a wildcard,
else substring containment of the pattern token in the label token. -/
def tokenMatchSpec (p g : List Char) : Bool :=
  if tokenHasWild p then fnmatchB g p else containsSub p g

/-- The claim's three-branch description of `matches(label, pattern)`,
written from the specification text. -/
def matchesSpec (label pattern : String) : Bool :=
  let l := lowerChars label.toList
  let p := lowerChars pattern.toList
  if p.contains ' ' then
    let pts := splitWs p
    let lts := splitWs l
    if pts.length > lts.length then false
    else (List.range pts.length).all (fun i => tokenMatchSpec (pts.getD i []) (lts.getD i []))
  else if tokenHasWild p then fnmatchB l p
  else containsSub p l

/-! ### Shared sample inputs for witnesses and counterexamples -/

/-- A request configuration with proxying disabled and no filters. -/
def sampleCfg : GenConfig :=
  { username := "u", password := "p", server_url := "http://s:80",
    wanted_groups := [], unwanted_groups := [], no_stream_proxy := true,
    include_channel_id := false, channel_id_tag := "channel-id",
    proxy_url := "http://px" }

/-- A series stream used to exercise episode expansion. -/
def seriesSampleStream : MediaStream :=
  { stream_id := none, series_id := some "77", name := some "Show",
    category_id := some "1", content_type := some "series",
    stream_icon := none, container_extension := none, epg_channel_id := none }

/-- A live stream with no logo, used to exhibit the unconditional
`tvg-logo` tag. -/
def noLogoStream : MediaStream :=
  { stream_id := some "5", series_id := none, name := some "Chan",
    category_id := some "1", content_type := none, stream_icon := none,
    container_extension := none, epg_channel_id := none }

/-- Endpoint results in which the mandatory live-categories endpoint failed
at transport level (the `(error_json, 503)` tuple of `fetch_api_data`). -/
def liveCatTransportFail : EndpointResults :=
  { live_categories := ApiValue.verr "Request Exception" 503,
    live_streams := ApiValue.vlist [],
    vod_categories := ApiValue.vother, series_categories := ApiValue.vother,
    vod_streams := ApiValue.vother, series := ApiValue.vother }

/-! ### Helper lemmas -/

theorem insertByKey_perm (key : α → Nat) (x : α) (l : List α) :
    List.Perm (insertByKey key x l) (x :: l) := by
  induction l with
  | nil => simp [insertByKey]
  | cons y ys ih =>
    unfold insertByKey
    split
    · exact ((ih.cons y).trans (List.Perm.swap x y ys))
    · exact List.Perm.refl _

theorem sortByKey_perm (key : α → Nat) (l : List α) :
    List.Perm (sortByKey key l) l := by
  induction l with
  | nil => simp [sortByKey]
  | cons x xs ih =>
    exact (insertByKey_perm key x (sortByKey key xs)).trans (ih.cons x)

theorem insertByKey_pairwise (key : α → Nat) (x : α) (l : List α)
    (h : List.Pairwise (fun a b => key a ≤ key b) l) :
    List.Pairwise (fun a b => key a ≤ key b) (insertByKey key x l) := by
  induction l with
  | nil => simp [insertByKey]
  | cons y ys ih =>
    unfold insertByKey
    rcases List.pairwise_cons.mp h with ⟨hy, hys⟩
    split
    · rename_i hlt
      refine List.pairwise_cons.mpr ⟨?_, ih hys⟩
      intro b hb
      have hb' := (insertByKey_perm key x ys).mem_iff.mp hb
      rcases List.mem_cons.mp hb' with hbx | hbm
      · subst hbx; omega
      · exact hy b hbm
    · rename_i hge
      refine List.pairwise_cons.mpr ⟨?_, h⟩
      intro b hb
      rcases List.mem_cons.mp hb with hby | hbm
      · subst hby; omega
      · have := hy b hbm; omega

theorem sortByKey_pairwise (key : α → Nat) (l : List α) :
    List.Pairwise (fun a b => key a ≤ key b) (sortByKey key l) := by
  induction l with
  | nil => simp [sortByKey]
  | cons x xs ih => exact insertByKey_pairwise key x _ ih

theorem wanted_patterns_isEmpty (w : List String) :
    (wanted_patterns w).isEmpty = w.isEmpty := by
  unfold wanted_patterns
  split
  · simp_all
  · cases w <;> simp_all

theorem partsMatch_eq_rangeAll : ∀ (pp gp : List (List Char)),
    pp.length ≤ gp.length →
    partsMatch pp gp =
      (List.range pp.length).all
        (fun i => tokenMatchSpec (pp.getD i []) (gp.getD i [])) := by
  intro pp
  induction pp with
  | nil => intro gp h; simp [partsMatch]
  | cons p ps ih =>
    intro gp h
    cases gp with
    | nil => simp at h
    | cons g gs =>
      simp only [List.length_cons, Nat.succ_le_succ_iff] at h
      simp only [List.length_cons]
      rw [List.range_succ_eq_map]
      simp only [List.all_cons, List.all_map, partsMatch]
      rw [ih gs h]
      have hhead : tokenMatchSpec ((p :: ps).getD 0 []) ((g :: gs).getD 0 []) =
          (if tokenHasWild p = true then fnmatchB g p else containsSub p g) := by
        simp [tokenMatchSpec]
      have htail : ((fun i => tokenMatchSpec ((p :: ps).getD i []) ((g :: gs).getD i [])) ∘
          Nat.succ) = (fun i => tokenMatchSpec (ps.getD i []) (gs.getD i [])) := by
        funext i
        simp [Function.comp, List.getElem?_cons_succ]
      rw [hhead, htail]

/-! ### Claim theorems -/

/-- Claim C1: for every stream, the inclusion test evaluates each pattern
against both the raw category name and the content-kind-prefixed group
title, and decides by mode priority: a non-empty wanted set includes iff
some wanted pattern matches (the unwanted set is ignored entirely); else a
non-empty unwanted set includes iff no unwanted pattern matches; else every
stream is included. -/
theorem C1_inclusion_modes (wanted unwanted : List String)
    (cats : List (String × String)) (s : MediaStream) :
    (wanted ≠ [] →
      (include_stream wanted unwanted (category_name_of cats s)
          (group_title_of cats s) = true ↔
        ∃ p ∈ wanted, group_matches (category_name_of cats s) p = true ∨
          group_matches (group_title_of cats s) p = true) ∧
      ∀ unwanted', include_stream wanted unwanted' (category_name_of cats s)
          (group_title_of cats s) =
        include_stream wanted unwanted (category_name_of cats s)
          (group_title_of cats s)) ∧
    (wanted = [] → unwanted ≠ [] →
      (include_stream wanted unwanted (category_name_of cats s)
          (group_title_of cats s) = true ↔
        ∀ p ∈ unwanted, ¬(group_matches (category_name_of cats s) p = true ∨
          group_matches (group_title_of cats s) p = true))) ∧
    (wanted = [] → unwanted = [] →
      include_stream wanted unwanted (category_name_of cats s)
        (group_title_of cats s) = true) := by
  refine ⟨?_, ?_, ?_⟩
  · intro hw
    have hwe : wanted.isEmpty = false := by cases wanted <;> simp_all
    constructor
    · unfold include_stream
      rw [wanted_patterns_isEmpty, hwe]
      simp [List.any_eq_true]
    · intro unwanted'
      unfold include_stream
      rw [wanted_patterns_isEmpty, hwe]
      simp
  · intro hw hu
    subst hw
    have hue : unwanted.isEmpty = false := by cases unwanted <;> simp_all
    unfold include_stream
    rw [wanted_patterns_isEmpty, wanted_patterns_isEmpty, hue]
    simp [List.any_eq_true]
  · intro hw hu
    subst hw
    subst hu
    unfold include_stream
    simp [wanted_patterns]

/-- Witness for C1 at the specification's own scenario: `wanted=["News"]`,
`unwanted=["Sports"]`, a stream in group `Sports` — the unwanted list is
ignored, so the inclusion decision equals the one with no unwanted list. -/
theorem C1_inclusion_modes_witness :
    include_stream ["News"] []
        (category_name_of [("1", "Sports")]
          { stream_id := some "5", series_id := none, name := some "Chan",
            category_id := some "1", content_type := none, stream_icon := none,
            container_extension := none, epg_channel_id := none })
        (group_title_of [("1", "Sports")]
          { stream_id := some "5", series_id := none, name := some "Chan",
            category_id := some "1", content_type := none, stream_icon := none,
            container_extension := none, epg_channel_id := none }) =
      include_stream ["News"] ["Sports"]
        (category_name_of [("1", "Sports")]
          { stream_id := some "5", series_id := none, name := some "Chan",
            category_id := some "1", content_type := none, stream_icon := none,
            container_extension := none, epg_channel_id := none })
        (group_title_of [("1", "Sports")]
          { stream_id := some "5", series_id := none, name := some "Chan",
            category_id := some "1", content_type := none, stream_icon := none,
            container_extension := none, epg_channel_id := none }) :=
  ((C1_inclusion_modes ["News"] ["Sports"] [("1", "Sports")]
      { stream_id := some "5", series_id := none, name := some "Chan",
        category_id := some "1", content_type := none, stream_icon := none,
        container_extension := none, epg_channel_id := none }).1
    (by decide)).2 []

/-- Claim C2: `matches(label, pattern)` equals the three-branch definition
of the specification: lower-case both; space → positional token matching
with a token-count guard; else wildcard → glob on the whole label; else
substring containment. -/
theorem C2_matches_spec (label pattern : String) :
    group_matches label pattern = matchesSpec label pattern := by
  unfold group_matches matchesSpec
  dsimp only
  split
  · split
    · rfl
    · rename_i hlen
      exact partsMatch_eq_rangeAll _ _ (Nat.le_of_not_lt hlen)
  · rfl

theorem sortByKey_map_sum (key : α → Nat) (g : α → Nat) (l : List α) :
    ((sortByKey key l).map g).sum = (l.map g).sum := by
  have hins : ∀ (x : α) (m : List α),
      ((insertByKey key x m).map g).sum = g x + (m.map g).sum := by
    intro x m
    induction m with
    | nil => simp [insertByKey]
    | cons y ys ih =>
      unfold insertByKey
      split
      · simp [ih]
        omega
      · simp
  induction l with
  | nil => simp [sortByKey]
  | cons x xs ih =>
    unfold sortByKey
    rw [hins x (sortByKey key xs), ih]
    simp

theorem seriesPairs_length (d : List (String × List Episode)) :
    (seriesPairs d).length = (d.map (fun kv => kv.2.length)).sum := by
  unfold seriesPairs
  rw [List.length_flatMap]
  have h1 : (List.map (List.length ∘ fun kv : String × List Episode =>
      kv.2.map (fun e => (kv.1, e))) (sortSeasons d)) =
      (sortSeasons d).map (fun kv => kv.2.length) := by
    apply List.map_congr_left
    intro kv _
    simp
  rw [h1]
  exact sortByKey_map_sum _ _ d

theorem seriesPairs_sorted (d : List (String × List Episode)) :
    List.Pairwise (fun a b : String × Episode =>
      seasonSortKey a.1 ≤ seasonSortKey b.1) (seriesPairs d) := by
  unfold seriesPairs
  rw [List.flatMap_def, List.pairwise_flatten]
  constructor
  · intro l' hl'
    obtain ⟨kv, _, rfl⟩ := List.mem_map.mp hl'
    rw [List.pairwise_map]
    have : ∀ (m : List Episode), List.Pairwise
        (fun _ _ : Episode => seasonSortKey kv.1 ≤ seasonSortKey kv.1) m := by
      intro m
      induction m with
      | nil => exact List.Pairwise.nil
      | cons e es ih => exact List.pairwise_cons.mpr ⟨fun _ _ => Nat.le_refl _, ih⟩
    exact this kv.2
  · rw [List.pairwise_map]
    refine (sortByKey_pairwise (fun kv : String × List Episode =>
      seasonSortKey kv.1) d).imp ?_
    intro a b hab x hx y hy
    obtain ⟨ex, _, rfl⟩ := List.mem_map.mp hx
    obtain ⟨ey, _, rfl⟩ := List.mem_map.mp hy
    exact hab

theorem seriesRecords_format (cfg : GenConfig) (tags : List String)
    (stream_name : String) (d : List (String × List Episode)) :
    ∀ r ∈ seriesRecords cfg tags stream_name d, ∃ ke ∈ seriesPairs d,
      r.1 = "#EXTINF:0 " ++ joinSpace tags ++ "," ++
        (stream_name ++ " - S" ++ zfill2 ke.1 ++ "E" ++
          zfill2 (Nat.repr ke.2.episode_num) ++ " - " ++ ke.2.title) ∧
      r.2 = proxyWrap cfg (cfg.server_url ++ "/series/" ++ cfg.username ++
        "/" ++ cfg.password ++ "/" ++ ke.2.id ++ "." ++
        ke.2.container_extension.getD "mp4") := by
  intro r hr
  obtain ⟨ke, hke, rfl⟩ := List.mem_map.mp hr
  exact ⟨ke, hke, rfl, rfl⟩

theorem processStream_series_dict (cfg : GenConfig)
    (cats : List (String × String)) (epMap : List (String × EpisodesPayload))
    (s : MediaStream) (d : List (String × List Episode))
    (hct : content_type_of s = "series")
    (hinc : include_stream cfg.wanted_groups cfg.unwanted_groups
      (category_name_of cats s) (group_title_of cats s) = true)
    (hep : lookupEpisodes epMap s.series_id = some (EpisodesPayload.dict d))
    (hne : d ≠ []) :
    processStream cfg cats epMap s = Except.ok
      (seriesRecords cfg (mkTags cfg s (stream_name_of s) (group_title_of cats s))
        (stream_name_of s) d) := by
  have hde : d.isEmpty = false := by cases d <;> simp_all
  unfold processStream
  dsimp only
  rw [hinc, hct, hep]
  simp [payloadTruthy, hde]

/-- Claim C3 counterexample: with seasons `"1000"` and `"X"`, the code
emits the non-numeric season `"X"` (sort key 999) before season `"1000"`,
and formats titles as `S..E..` with no separator between season and
episode — the claimed order (non-numeric last) and format
(`S.. - E..`) both differ. -/
theorem C3_counterexample :
    processStream sampleCfg [("1", "Action")]
        [("77", EpisodesPayload.dict
          [("1000", [{ id := "e1", episode_num := 1, title := "T1",
                       container_extension := some "mp4" }]),
           ("X", [{ id := "e2", episode_num := 1, title := "T2",
                    container_extension := some "mp4" }])])]
        seriesSampleStream =
      Except.ok
        [("#EXTINF:0 tvg-name=\"Show\" group-title=\"Series - Action\" tvg-logo=\"\",Show - S0XE01 - T2",
          "http://s:80/series/u/p/e2.mp4"),
         ("#EXTINF:0 tvg-name=\"Show\" group-title=\"Series - Action\" tvg-logo=\"\",Show - S1000E01 - T1",
          "http://s:80/series/u/p/e1.mp4")] ∧
    ([("#EXTINF:0 tvg-name=\"Show\" group-title=\"Series - Action\" tvg-logo=\"\",Show - S0XE01 - T2",
       "http://s:80/series/u/p/e2.mp4"),
      ("#EXTINF:0 tvg-name=\"Show\" group-title=\"Series - Action\" tvg-logo=\"\",Show - S1000E01 - T1",
       "http://s:80/series/u/p/e1.mp4")] : List PlaylistRecord) ≠
      [("#EXTINF:0 tvg-name=\"Show\" group-title=\"Series - Action\" tvg-logo=\"\",Show - S1000 - E01 - T1",
        "http://s:80/series/u/p/e1.mp4"),
       ("#EXTINF:0 tvg-name=\"Show\" group-title=\"Series - Action\" tvg-logo=\"\",Show - S0X - E01 - T2",
        "http://s:80/series/u/p/e2.mp4")] := by
  constructor
  · rfl
  · decide

/-- Claim C3 (amended): for every included series stream with a non-empty
season-keyed episode map, one record is emitted per (season, episode) pair;
the emitted pairs are ordered by the numeric sort key of the season
(ascending, all-digit keys by value, other keys with sentinel key 999,
stable otherwise) with episodes in the order returned; each record's
display name is `<series name> - S<season zfill 2>E<episode zfill 2> -
<episode title>` and its media URL is built from the episode id and its
container extension (default mp4). -/
theorem C3_amended (cfg : GenConfig) (cats : List (String × String))
    (epMap : List (String × EpisodesPayload)) (s : MediaStream)
    (d : List (String × List Episode))
    (hct : content_type_of s = "series")
    (hinc : include_stream cfg.wanted_groups cfg.unwanted_groups
      (category_name_of cats s) (group_title_of cats s) = true)
    (hep : lookupEpisodes epMap s.series_id = some (EpisodesPayload.dict d))
    (hne : d ≠ []) :
    processStream cfg cats epMap s = Except.ok
      (seriesRecords cfg (mkTags cfg s (stream_name_of s) (group_title_of cats s))
        (stream_name_of s) d) ∧
    (seriesRecords cfg (mkTags cfg s (stream_name_of s) (group_title_of cats s))
      (stream_name_of s) d).length = (d.map (fun kv => kv.2.length)).sum ∧
    List.Pairwise (fun a b : String × Episode =>
      seasonSortKey a.1 ≤ seasonSortKey b.1) (seriesPairs d) ∧
    (∀ r ∈ seriesRecords cfg
        (mkTags cfg s (stream_name_of s) (group_title_of cats s))
        (stream_name_of s) d, ∃ ke ∈ seriesPairs d,
      r.1 = "#EXTINF:0 " ++
        joinSpace (mkTags cfg s (stream_name_of s) (group_title_of cats s)) ++ "," ++
        (stream_name_of s ++ " - S" ++ zfill2 ke.1 ++ "E" ++
          zfill2 (Nat.repr ke.2.episode_num) ++ " - " ++ ke.2.title) ∧
      r.2 = proxyWrap cfg (cfg.server_url ++ "/series/" ++ cfg.username ++
        "/" ++ cfg.password ++ "/" ++ ke.2.id ++ "." ++
        ke.2.container_extension.getD "mp4")) := by
  refine ⟨processStream_series_dict cfg cats epMap s d hct hinc hep hne, ?_, ?_, ?_⟩
  · rw [show (seriesRecords cfg
        (mkTags cfg s (stream_name_of s) (group_title_of cats s))
        (stream_name_of s) d).length = (seriesPairs d).length from
      List.length_map _ _]
    exact seriesPairs_length d
  · exact seriesPairs_sorted d
  · exact seriesRecords_format cfg _ _ d

/-- Witness for C3 (amended) at a one-season, one-episode input. -/
theorem C3_amended_witness :
    processStream sampleCfg [("1", "Action")]
        [("77", EpisodesPayload.dict
          [("1", [{ id := "e9", episode_num := 1, title := "Pilot",
                    container_extension := some "mkv" }])])]
        seriesSampleStream =
      Except.ok
        (seriesRecords sampleCfg
          (mkTags sampleCfg seriesSampleStream
            (stream_name_of seriesSampleStream)
            (group_title_of [("1", "Action")] seriesSampleStream))
          (stream_name_of seriesSampleStream)
          [("1", [{ id := "e9", episode_num := 1, title := "Pilot",
                    container_extension := some "mkv" }])]) :=
  (C3_amended sampleCfg [("1", "Action")]
    [("77", EpisodesPayload.dict
      [("1", [{ id := "e9", episode_num := 1, title := "Pilot",
                container_extension := some "mkv" }])])]
    seriesSampleStream
    [("1", [{ id := "e9", episode_num := 1, title := "Pilot",
              container_extension := some "mkv" }])]
    rfl rfl rfl (by decide)).1

/-- Claim C4 (code behavior at the failing input): when the upstream
`episodes` payload is a flat list, `fetch_series_episodes` stores the raw
list unchanged, and the generator's season iteration
(`episodes_data.items()`, m3u_generator.py lines 201/203) then fails with
an `AttributeError` — the episodes are never grouped by their `season`
field, contradicting the specification and the repository's own tests. -/
theorem C4_flat_list_behavior :
    extract_series_episodes (some (EpisodesPayload.flat
        [{ id := "ep1", episode_num := 1, title := "Ep 1",
           container_extension := some "mp4" }])) =
      some (EpisodesPayload.flat
        [{ id := "ep1", episode_num := 1, title := "Ep 1",
           container_extension := some "mp4" }]) ∧
    processStream sampleCfg [("1", "Action")]
        [("123", EpisodesPayload.flat
          [{ id := "ep1", episode_num := 1, title := "Ep 1",
             container_extension := some "mp4" }])]
        { stream_id := none, series_id := some "123",
          name := some "Test Series", category_id := some "1",
          content_type := some "series", stream_icon := none,
          container_extension := none, epg_channel_id := none } =
      Except.error () :=
  ⟨rfl, rfl⟩

/-- Claim C5 counterexample: a transport failure of `live_categories` is
present-but-not-list-shaped, yet the fetch fails by forwarding that
endpoint's own error tuple at status 503 — not with the invalid-format
error at status 500 the claim asserts for every non-list shape. -/
theorem C5_counterexample :
    fetch_categories_and_channels liveCatTransportFail true =
      Except.error ("Request Exception", 503) ∧
    ("Request Exception", 503) ≠ (invalid_format_error, 500) := by
  constructor
  · rfl
  · decide

/-- Claim C5 (amended): optional endpoints (vod_categories,
series_categories, vod_streams, series) are best-effort — a non-list value
contributes nothing and the aggregate keeps every entry of the successful
endpoints with no error; a transport-failure tuple on live_categories or
live_streams makes the whole fetch fail by forwarding that error and its
status; any other non-list shape of a mandatory endpoint fails with the
invalid-format error at status 500, returning no categories or streams. -/
theorem C5_amended (r : EndpointResults) :
    (∀ lc ls, r.live_categories = ApiValue.vlist lc →
      r.live_streams = ApiValue.vlist ls →
      fetch_categories_and_channels r true = Except.ok
        (tagItems "live" lc ++ optionalContribution "vod" r.vod_categories ++
           optionalContribution "series" r.series_categories,
         tagItems "live" ls ++ optionalContribution "vod" r.vod_streams ++
           optionalContribution "series" r.series)) ∧
    (∀ (k : String) (v : ApiValue), (∀ l, v ≠ ApiValue.vlist l) →
      optionalContribution k v = []) ∧
    (∀ e c, r.live_categories = ApiValue.verr e c →
      fetch_categories_and_channels r true = Except.error (e, c)) ∧
    (∀ lc e c, r.live_categories = ApiValue.vlist lc →
      r.live_streams = ApiValue.verr e c →
      fetch_categories_and_channels r true = Except.error (e, c)) ∧
    (r.live_categories = ApiValue.vother →
      (∀ e c, r.live_streams ≠ ApiValue.verr e c) →
      fetch_categories_and_channels r true =
        Except.error (invalid_format_error, 500)) ∧
    (∀ lc, r.live_categories = ApiValue.vlist lc →
      r.live_streams = ApiValue.vother →
      fetch_categories_and_channels r true =
        Except.error (invalid_format_error, 500)) := by
  refine ⟨?_, ?_, ?_, ?_, ?_, ?_⟩
  · intro lc ls hlc hls
    unfold fetch_categories_and_channels
    rw [hlc, hls]
    rfl
  · intro k v hv
    cases v with
    | vlist l => exact absurd rfl (hv l)
    | verr e c => rfl
    | vother => rfl
  · intro e c hlc
    unfold fetch_categories_and_channels
    rw [hlc]
  · intro lc e c hlc hls
    unfold fetch_categories_and_channels
    rw [hlc, hls]
  · intro hlc hls
    unfold fetch_categories_and_channels
    rw [hlc]
    cases hstream : r.live_streams with
    | vlist l => rfl
    | verr e c => exact absurd hstream (hls e c)
    | vother => rfl
  · intro lc hlc hls
    unfold fetch_categories_and_channels
    rw [hlc, hls]

/-- Witness for C5 (amended): live endpoints succeed while `vod_streams`
failed at transport level — all live streams are kept, the failed endpoint
contributes nothing, and no error is raised. -/
theorem C5_amended_witness :
    fetch_categories_and_channels
        { live_categories := ApiValue.vlist [{ payload := "c1", content_type := none }],
          live_streams := ApiValue.vlist [{ payload := "s1", content_type := none }],
          vod_categories := ApiValue.vlist [],
          series_categories := ApiValue.vlist [],
          vod_streams := ApiValue.verr "Request Exception" 503,
          series := ApiValue.vlist [] } true =
      Except.ok
        (tagItems "live" [{ payload := "c1", content_type := none }] ++
           optionalContribution "vod" (ApiValue.vlist []) ++
           optionalContribution "series" (ApiValue.vlist []),
         tagItems "live" [{ payload := "s1", content_type := none }] ++
           optionalContribution "vod" (ApiValue.verr "Request Exception" 503) ++
           optionalContribution "series" (ApiValue.vlist [])) :=
  (C5_amended
    { live_categories := ApiValue.vlist [{ payload := "c1", content_type := none }],
      live_streams := ApiValue.vlist [{ payload := "s1", content_type := none }],
      vod_categories := ApiValue.vlist [],
      series_categories := ApiValue.vlist [],
      vod_streams := ApiValue.verr "Request Exception" 503,
      series := ApiValue.vlist [] }).1
    [{ payload := "c1", content_type := none }]
    [{ payload := "s1", content_type := none }] rfl rfl

/-- Claim C6 counterexample: a pre-stream synchronous failure — the
image-proxy rejecting a non-image content type with 415 — returns without
closing the upstream response handle, so the handle is not released on
every exit path as the claim asserts. -/
theorem C6_counterexample :
    (proxy_image (UpstreamFetch.ok (some "text/html") []
        StreamTermination.completed)).status = 415 ∧
    (proxy_image (UpstreamFetch.ok (some "text/html") []
        StreamTermination.completed)).upstreamClosed = false :=
  ⟨rfl, rfl⟩

/-- Claim C6 (amended): a transport failure after the outbound response has
begun never raises — the generator stops yielding and the chunks already
produced stand as the final body with nothing appended — and the upstream
handle is closed on every exit path that reaches the streaming generator
(successful completion and every mid-stream error); pre-stream synchronous
failures return an error response without closing the handle. -/
theorem C6_amended :
    (∀ (chunks : List (List Nat)) (term : StreamTermination),
      (generate_streaming_body chunks term).raised = false ∧
      (generate_streaming_body chunks term).sent = yieldedChunks chunks ∧
      (generate_streaming_body chunks term).upstreamClosed = true) ∧
    (∀ (ct : Option String) (chunks : List (List Nat)) (term : StreamTermination),
      (proxy_stream (UpstreamFetch.ok ct chunks term)).upstreamClosed = true) ∧
    (∀ (ct : Option String) (chunks : List (List Nat)) (term : StreamTermination),
      leadMatch "image/".toList (ct.getD "").toList = true →
      (proxy_image (UpstreamFetch.ok ct chunks term)).upstreamClosed = true) := by
  refine ⟨?_, ?_, ?_⟩
  · intro chunks term
    cases term <;> exact ⟨rfl, rfl, rfl⟩
  · intro ct chunks term
    cases term <;> rfl
  · intro ct chunks term h
    unfold proxy_image
    dsimp only
    rw [h]
    cases term <;> rfl

/-- Witness for C6 (amended): an image response whose body ends in a
connection reset still closes the upstream handle. -/
theorem C6_amended_witness :
    (proxy_image (UpstreamFetch.ok (some "image/png") [[1, 2]]
        StreamTermination.connectionError)).upstreamClosed = true :=
  C6_amended.2.2 (some "image/png") [[1, 2]]
    StreamTermination.connectionError (by decide)

/-- Claim C7: pre-stream proxy failures map to distinct statuses — a
connect/read timeout to 504, an upstream HTTP error to the upstream's own
status code, a non-image content type on the image-proxy variant to 415,
and any other failure to 500. -/
theorem C7_prestream_statuses :
    (proxy_image UpstreamFetch.timeout).status = 504 ∧
    (proxy_stream UpstreamFetch.timeout).status = 504 ∧
    (∀ s : Nat, (proxy_image (UpstreamFetch.httpError s)).status = s ∧
      (proxy_stream (UpstreamFetch.httpError s)).status = s) ∧
    (∀ (ct : Option String) (chunks : List (List Nat)) (term : StreamTermination),
      leadMatch "image/".toList (ct.getD "").toList = false →
      (proxy_image (UpstreamFetch.ok ct chunks term)).status = 415) ∧
    (proxy_image UpstreamFetch.otherFailure).status = 500 ∧
    (proxy_stream UpstreamFetch.otherFailure).status = 500 := by
  refine ⟨rfl, rfl, fun s => ⟨rfl, rfl⟩, ?_, rfl, rfl⟩
  intro ct chunks term h
  unfold proxy_image
  dsimp only
  rw [h]
  rfl

/-- Witness for C7: a `text/html` body on the image proxy is rejected with
status 415. -/
theorem C7_prestream_statuses_witness :
    (proxy_image (UpstreamFetch.ok (some "text/html") []
        StreamTermination.completed)).status = 415 :=
  C7_prestream_statuses.2.2.2.1 (some "text/html") []
    StreamTermination.completed (by decide)

/-- Claim C8: an included series stream whose episode map is absent or
empty produces exactly one fallback record whose media URL uses the series
id as the media identifier. -/
theorem C8_series_fallback (cfg : GenConfig) (cats : List (String × String))
    (epMap : List (String × EpisodesPayload)) (s : MediaStream) (sid : String)
    (hct : content_type_of s = "series")
    (hsid : s.series_id = some sid)
    (hinc : include_stream cfg.wanted_groups cfg.unwanted_groups
      (category_name_of cats s) (group_title_of cats s) = true)
    (hep : lookupEpisodes epMap s.series_id = none ∨
      ∃ p, lookupEpisodes epMap s.series_id = some p ∧ payloadTruthy p = false) :
    processStream cfg cats epMap s = Except.ok
      [("#EXTINF:0 " ++
          joinSpace (mkTags cfg s (stream_name_of s) (group_title_of cats s)) ++
          "," ++ stream_name_of s,
        proxyWrap cfg (cfg.server_url ++ "/series/" ++ cfg.username ++ "/" ++
          cfg.password ++ "/" ++ sid ++ ".mp4"))] := by
  unfold processStream
  dsimp only
  rw [hinc, hct]
  rcases hep with hnone | ⟨p, hsome, hfalse⟩
  · rw [hnone, hsid]
    rfl
  · rw [hsome, hsid]
    simp [hfalse]

/-- Witness for C8 at a concrete series with an empty episode mapping. -/
theorem C8_series_fallback_witness :
    processStream sampleCfg [("1", "Action")]
        [("77", EpisodesPayload.dict [])] seriesSampleStream =
      Except.ok
        [("#EXTINF:0 " ++
            joinSpace (mkTags sampleCfg seriesSampleStream
              (stream_name_of seriesSampleStream)
              (group_title_of [("1", "Action")] seriesSampleStream)) ++
            "," ++ stream_name_of seriesSampleStream,
          proxyWrap sampleCfg (sampleCfg.server_url ++ "/series/" ++
            sampleCfg.username ++ "/" ++ sampleCfg.password ++ "/" ++ "77" ++
            ".mp4"))] :=
  C8_series_fallback sampleCfg [("1", "Action")]
    [("77", EpisodesPayload.dict [])] seriesSampleStream "77"
    rfl rfl rfl (Or.inr ⟨EpisodesPayload.dict [], rfl, rfl⟩)

/-- Claim C9 counterexample: a stream without a logo URL still gets a
`tvg-logo` tag (with empty value) — the tag is not restricted to streams
that have a logo. -/
theorem C9_counterexample :
    noLogoStream.stream_icon = none ∧
    mkTags sampleCfg noLogoStream "Chan" "News" =
      ["tvg-name=\"Chan\"", "group-title=\"News\"", "tvg-logo=\"\""] :=
  ⟨rfl, rfl⟩

/-- Claim C9 (amended): every emitted tag list starts with `tvg-name`,
`group-title` and a `tvg-logo` tag (the logo value is the computed logo URL,
empty when the stream has none); the caller-named channel tag is appended
exactly when the option is enabled and the stream carries a non-empty
channel id. -/
theorem C9_amended (cfg : GenConfig) (s : MediaStream) (n g : String) :
    (mkTags cfg s n g).take 3 =
      ["tvg-name=\"" ++ n ++ "\"", "group-title=\"" ++ g ++ "\"",
       "tvg-logo=\"" ++ logo_url_of cfg s ++ "\""] ∧
    (∀ cid, cfg.include_channel_id = true → s.epg_channel_id = some cid →
      cid ≠ "" →
      mkTags cfg s n g =
        ["tvg-name=\"" ++ n ++ "\"", "group-title=\"" ++ g ++ "\"",
         "tvg-logo=\"" ++ logo_url_of cfg s ++ "\""] ++
          [cfg.channel_id_tag ++ "=\"" ++ cid ++ "\""]) ∧
    (cfg.include_channel_id = false ∨ s.epg_channel_id = none ∨
        s.epg_channel_id = some "" →
      mkTags cfg s n g =
        ["tvg-name=\"" ++ n ++ "\"", "group-title=\"" ++ g ++ "\"",
         "tvg-logo=\"" ++ logo_url_of cfg s ++ "\""]) := by
  refine ⟨?_, ?_, ?_⟩
  · unfold mkTags
    dsimp only
    split
    · split
      · split
        · rfl
        · rfl
      · rfl
    · rfl
  · intro cid hinc hcid hne
    unfold mkTags
    dsimp only
    rw [hinc, hcid]
    have : (cid != "") = true := by
      cases hcid' : cid == "" with
      | true => exact absurd (by simpa using hcid') hne
      | false => simp [bne, hcid']
    simp [this]
  · intro h
    unfold mkTags
    dsimp only
    rcases h with h | h | h
    · rw [h]
      rfl
    · rw [h]
      split <;> rfl
    · rw [h]
      split <;> rfl

/-- Witness for C9 (amended): with the channel-id option enabled and a
channel id present, the channel tag is appended after the three base
tags. -/
theorem C9_amended_witness :
    mkTags
        { username := "u", password := "p", server_url := "http://s:80",
          wanted_groups := [], unwanted_groups := [], no_stream_proxy := true,
          include_channel_id := true, channel_id_tag := "channel-id",
          proxy_url := "http://px" }
        { stream_id := some "5", series_id := none, name := some "Chan",
          category_id := some "1", content_type := none, stream_icon := none,
          container_extension := none, epg_channel_id := some "bbc1" }
        "Chan" "News" =
      ["tvg-name=\"Chan\"", "group-title=\"News\"",
       "tvg-logo=\"" ++ logo_url_of
         { username := "u", password := "p", server_url := "http://s:80",
           wanted_groups := [], unwanted_groups := [], no_stream_proxy := true,
           include_channel_id := true, channel_id_tag := "channel-id",
           proxy_url := "http://px" }
         { stream_id := some "5", series_id := none, name := some "Chan",
           category_id := some "1", content_type := none, stream_icon := none,
           container_extension := none, epg_channel_id := some "bbc1" } ++ "\""] ++
        ["channel-id" ++ "=\"" ++ "bbc1" ++ "\""] :=
  ((C9_amended
    { username := "u", password := "p", server_url := "http://s:80",
      wanted_groups := [], unwanted_groups := [], no_stream_proxy := true,
      include_channel_id := true, channel_id_tag := "channel-id",
      proxy_url := "http://px" }
    { stream_id := some "5", series_id := none, name := some "Chan",
      category_id := some "1", content_type := none, stream_icon := none,
      container_extension := none, epg_channel_id := some "bbc1" }
    "Chan" "News").2.1) "bbc1" rfl rfl (by decide)

/-- Claim C10: a stream whose category id is absent or not found in the
categories list is assigned the category name "Uncategorized"; its group
title is "Uncategorized" with the content-kind prefix for vod/series, the
emission result is the same as with an empty category list (the stream is
neither dropped nor an error raised because of the missing category), and
an included live stream is emitted under that group title. -/
theorem C10_uncategorized (cfg : GenConfig) (cats : List (String × String))
    (epMap : List (String × EpisodesPayload)) (s : MediaStream)
    (h : category_lookup cats s = none) :
    category_name_of cats s = "Uncategorized" ∧
    group_title_of cats s =
      (if content_type_of s == "series" then "Series - Uncategorized"
       else if content_type_of s == "vod" then "VOD - Uncategorized"
       else "Uncategorized") ∧
    processStream cfg cats epMap s = processStream cfg [] epMap s ∧
    (∀ sid, content_type_of s = "live" → s.stream_id = some sid →
      include_stream cfg.wanted_groups cfg.unwanted_groups
        (category_name_of cats s) (group_title_of cats s) = true →
      processStream cfg cats epMap s = Except.ok
        [("#EXTINF:0 " ++
            joinSpace (mkTags cfg s (stream_name_of s) (group_title_of cats s)) ++
            "," ++ stream_name_of s,
          proxyWrap cfg (cfg.server_url ++ "/live/" ++ cfg.username ++ "/" ++
            cfg.password ++ "/" ++ sid ++ ".ts"))]) := by
  have hname : category_name_of cats s = "Uncategorized" := by
    unfold category_name_of
    rw [h]
    rfl
  have hempty : category_lookup [] s = none := by
    unfold category_lookup
    cases s.category_id <;> rfl
  have hname0 : category_name_of cats s = category_name_of [] s := by
    unfold category_name_of
    rw [h, hempty]
  have htitle : group_title_of cats s = group_title_of [] s := by
    unfold group_title_of
    rw [hname0]
  refine ⟨hname, ?_, ?_, ?_⟩
  · unfold group_title_of
    rw [hname]
    split <;> [rfl; split <;> rfl]
  · unfold processStream
    dsimp only
    rw [hname0, htitle]
  · intro sid hlive hsid hinc
    unfold processStream
    dsimp only
    rw [hinc, hlive, hsid]
    rfl

/-- Witness for C10 at a live stream whose category id is unknown. -/
theorem C10_uncategorized_witness :
    category_name_of [("1", "Action")]
        { stream_id := some "5", series_id := none, name := some "Chan",
          category_id := some "9", content_type := none, stream_icon := none,
          container_extension := none, epg_channel_id := none } =
      "Uncategorized" :=
  (C10_uncategorized sampleCfg [("1", "Action")] []
    { stream_id := some "5", series_id := none, name := some "Chan",
      category_id := some "9", content_type := none, stream_icon := none,
      container_extension := none, epg_channel_id := none } rfl).1

example : group_matches "Sports HD" "sport h*" = true := by decide
example : group_matches "Sports" "sport h*" = false := by decide
example : group_matches "News Channel" "news" = true := by decide
example : group_matches "Sports" "port" = true := by decide
example : group_matches "Sports" "x*" = false := by decide
example : group_matches "Sports" "s?orts" = true := by decide
example : group_matches "abc" "a[b-d]*" = true := by decide
example : group_matches "aec" "a[b-d]*" = false := by decide
example : group_matches "abc" "a[b-d]c" = false := by decide
example : encode_url "http://a/b c" = "http%3A%2F%2Fa%2Fb%20c" := by decide
example : encode_url "" = "" := by decide

end Xtream
